import Mathlib

/-!
Verification of the chat backend in `src/backend/src/backend/main.py`
(repository m1nce/dstl-onboarding-chat).

The HTTP handlers of `main.py` are embedded as pure functions over an
explicit relational store.  The ORM models (`models.py`), the database
session machinery (`database.py`) and the LLM client (`llm.py`) are not
part of the provided sources, so the data model is modelled from the
spec: conversations and messages are rows with auto-assigned integer
ids, messages carry a creation timestamp used for ordering, and the
LLM client is an explicit function parameter that either returns
assistant text or raises (returns an error).

Each handler takes the current store and returns the HTTP outcome
(success value or `HTTPException`) together with the store after the
request; on every error path the handler commits nothing, so the store
is returned unchanged, matching the request-scoped session with
commit-on-success described in the spec.
-/

namespace DstlChat

/-- Modelled from the spec: the `Conversation` ORM row of the missing
`models.py` — auto-assigned integer id and an optional title
(`title: str | None`). -/
structure Conversation where
  id : Nat
  title : Option String
  deriving Repr, DecidableEq

/-- Modelled from the spec: the `Message` ORM row of the missing
`models.py` — auto-assigned integer id, foreign key to the owning
conversation, free-form role, text content, and a creation timestamp
used for ordering. -/
structure Message where
  id : Nat
  conversation_id : Nat
  role : String
  content : String
  created_at : Nat
  deriving Repr, DecidableEq

/-- Modelled from the spec: the relational store behind the missing
`database.py` — the two tables plus the auto-increment counters for
ids and a clock supplying creation timestamps. -/
structure Store where
  conversations : List Conversation
  messages : List Message
  next_conversation_id : Nat
  next_message_id : Nat
  clock : Nat
  deriving Repr, DecidableEq

/-- An `HTTPException` as raised by the handlers: status code, detail
string, and the chained cause (`raise ... from e`), `none` when the
exception is raised without a cause. -/
structure HTTPException where
  status_code : Nat
  detail : String
  cause : Option String
  deriving Repr, DecidableEq

/-- Outcome of a request: the response value or the raised
`HTTPException`, paired with the store after the request. -/
abbrev Response (α : Type) := Except HTTPException α × Store

/-- Request body of `POST /conversations/` (`ConversationCreate`):
an optional title. -/
structure ConversationCreate where
  title : Option String
  deriving Repr, DecidableEq

/-- Response model `ConversationRead`: id and title. -/
structure ConversationRead where
  title : Option String
  id : Nat
  deriving Repr, DecidableEq

/-- Request body of `POST /conversations/{id}/messages`
(`MessageCreate`): role and content. -/
structure MessageCreate where
  role : String
  content : String
  deriving Repr, DecidableEq

/-- Response model `MessageRead`: role, content, id and
conversation id. -/
structure MessageRead where
  role : String
  content : String
  id : Nat
  conversation_id : Nat
  deriving Repr, DecidableEq

/-- Response model `ConversationReadWithMessages`. -/
structure ConversationReadWithMessages where
  title : Option String
  id : Nat
  messages : List MessageRead
  deriving Repr, DecidableEq

/-- `ConversationRead.from_orm`. -/
def ConversationRead.from_orm (c : Conversation) : ConversationRead :=
  { title := c.title, id := c.id }

/-- `MessageRead.from_orm`. -/
def MessageRead.from_orm (m : Message) : MessageRead :=
  { role := m.role, content := m.content, id := m.id,
    conversation_id := m.conversation_id }

/-- One entry of the message list handed to the LLM client: a
role/content dictionary. -/
structure LlmMessage where
  role : String
  content : String
  deriving Repr, DecidableEq

/-- The LLM client `generate_llm_response` of the missing `llm.py`,
modelled from the spec as an explicit collaborator: it takes the
chronological message list and returns assistant text, or raises
(an `Except.error` carrying the exception `e`). -/
abbrev LlmClient := List LlmMessage → Except String String

/-- `session.get(Conversation, conversation_id)`: primary-key lookup. -/
def getConversationRow (session : Store) (conversation_id : Nat) :
    Option Conversation :=
  session.conversations.find? (fun c => c.id == conversation_id)

/-- Ordering of messages by creation timestamp, the `order_by`
relation of `get_conversation_messages`. -/
def msgLe (a b : Message) : Prop :=
  a.created_at ≤ b.created_at

instance : DecidableRel msgLe := fun a b =>
  inferInstanceAs (Decidable (a.created_at ≤ b.created_at))

instance : IsTotal Message msgLe :=
  ⟨fun a b => Nat.le_total a.created_at b.created_at⟩

instance : IsTrans Message msgLe :=
  ⟨fun _ _ _ h1 h2 => Nat.le_trans h1 h2⟩

/-- `get_conversation_messages`: all messages of the conversation,
ordered by `created_at` (the `select ... where ... order_by`). -/
def get_conversation_messages (session : Store) (conversation_id : Nat) :
    List Message :=
  List.insertionSort msgLe
    (session.messages.filter (fun m => m.conversation_id == conversation_id))

/-- The 404 exception raised by every handler when the conversation id
is absent. -/
def conversationNotFound : HTTPException :=
  { status_code := 404, detail := "Conversation not found", cause := none }

/-- Inserting a message row: the database assigns the next id and the
current timestamp (modelled from the spec, the insert of the missing
`models.py` defaults). -/
def insertMessage (session : Store) (conversation_id : Nat)
    (role content : String) : Message × Store :=
  let m : Message :=
    { id := session.next_message_id, conversation_id := conversation_id,
      role := role, content := content, created_at := session.clock }
  (m, { session with
          messages := session.messages ++ [m],
          next_message_id := session.next_message_id + 1,
          clock := session.clock + 1 })

/-- Handler `create_conversation` (`POST /conversations/`): insert the
row, then — when no title was provided — patch the title to
`"Conversation {id}"` using the assigned id (two-write pattern). -/
def create_conversation (session : Store)
    (conversation : ConversationCreate) : ConversationRead × Store :=
  let db_id := session.next_conversation_id
  let db_conversation : Conversation := { id := db_id, title := conversation.title }
  let session1 : Store :=
    { session with
        conversations := session.conversations ++ [db_conversation],
        next_conversation_id := session.next_conversation_id + 1 }
  match db_conversation.title with
  | none =>
      let patched : Conversation :=
        { db_conversation with title := some ("Conversation " ++ toString db_id) }
      let session2 : Store :=
        { session1 with
            conversations :=
              session1.conversations.map (fun c => if c.id == db_id then patched else c) }
      (ConversationRead.from_orm patched, session2)
  | some _ => (ConversationRead.from_orm db_conversation, session1)

/-- Handler `read_conversations` (`GET /conversations/`): a page of
conversations via offset/limit. -/
def read_conversations (session : Store) (offset limit : Nat) :
    List ConversationRead :=
  ((session.conversations.drop offset).take limit).map ConversationRead.from_orm

/-- Handler `read_conversation` (`GET /conversations/{id}`): 404 when
absent, otherwise the conversation plus its ordered messages. -/
def read_conversation (session : Store) (conversation_id : Nat) :
    Response ConversationReadWithMessages :=
  match getConversationRow session conversation_id with
  | none => (Except.error conversationNotFound, session)
  | some conversation =>
      let messages := get_conversation_messages session conversation_id
      (Except.ok
        { id := conversation.id, title := conversation.title,
          messages := messages.map MessageRead.from_orm }, session)

/-- Handler `delete_conversation` (`DELETE /conversations/{id}`): 404
when absent; otherwise delete every message of the conversation, then
the conversation row, and acknowledge with `ok = true`.  Deleting each
row returned by `get_conversation_messages` removes exactly the rows
whose `conversation_id` matches; deleting the conversation removes the
row with the looked-up primary key. -/
def delete_conversation (session : Store) (conversation_id : Nat) :
    Response Bool :=
  match getConversationRow session conversation_id with
  | none => (Except.error conversationNotFound, session)
  | some _ =>
      (Except.ok true,
        { session with
            messages := session.messages.filter
              (fun m => ¬ m.conversation_id == conversation_id),
            conversations := session.conversations.filter
              (fun c => ¬ c.id == conversation_id) })

/-- Handler `read_messages_for_conversation`
(`GET /conversations/{id}/messages`): 404 when absent, else the
ordered messages. -/
def read_messages_for_conversation (session : Store) (conversation_id : Nat) :
    Response (List MessageRead) :=
  match getConversationRow session conversation_id with
  | none => (Except.error conversationNotFound, session)
  | some _ =>
      (Except.ok
        ((get_conversation_messages session conversation_id).map MessageRead.from_orm),
        session)

/-- Handler `create_message_for_conversation`
(`POST /conversations/{id}/messages`): 404 when absent, else persist a
message with the given role and content and return it. -/
def create_message_for_conversation (session : Store) (conversation_id : Nat)
    (message_in : MessageCreate) : Response MessageRead :=
  match getConversationRow session conversation_id with
  | none => (Except.error conversationNotFound, session)
  | some _ =>
      let r := insertMessage session conversation_id message_in.role message_in.content
      (Except.ok (MessageRead.from_orm r.1), r.2)

/-- The fixed system instruction prepended to the history. -/
def systemInstruction : LlmMessage :=
  { role := "system",
    content := "You are a helpful assistant for the DSTL Chat App." }

/-- The message list handed to the LLM client: the fixed system
instruction followed by the history entries as role/content pairs. -/
def build_llm_messages (history : List Message) : List LlmMessage :=
  systemInstruction :: history.map (fun m => { role := m.role, content := m.content })

/-- Handler `generate_llm_reply` (`POST /conversations/{id}/llm_reply`):
404 when the conversation is absent; 400 when the history is empty;
otherwise call the LLM client on the built message list; on failure a
500 chaining the cause; on success persist the returned text as an
assistant message and return it. -/
def generate_llm_reply (llm : LlmClient) (session : Store)
    (conversation_id : Nat) : Response MessageRead :=
  match getConversationRow session conversation_id with
  | none => (Except.error conversationNotFound, session)
  | some _ =>
      let history := get_conversation_messages session conversation_id
      if history.isEmpty then
        (Except.error
          { status_code := 400,
            detail := "No messages in conversation to build a prompt from.",
            cause := none }, session)
      else
        match llm (build_llm_messages history) with
        | Except.error e =>
            (Except.error
              { status_code := 500, detail := "LLM call failed",
                cause := some e }, session)
        | Except.ok assistant_text =>
            let r := insertMessage session conversation_id "assistant" assistant_text
            (Except.ok (MessageRead.from_orm r.1), r.2)

end DstlChat

namespace DstlChat

/-! ### Helper lemmas -/

/-- Filtering with a weaker predicate first does not change a filter. -/
theorem filter_filter_of_imp {α : Type} (p q : α → Bool)
    (h : ∀ x, p x = true → q x = true) :
    ∀ l : List α, (l.filter q).filter p = l.filter p := by
  intro l
  induction l with
  | nil => rfl
  | cons a l ih =>
    by_cases hp : p a = true
    · have hq := h a hp
      simp [List.filter_cons, hq, hp, ih]
    · have hp' : p a = false := by revert hp; cases p a <;> simp
      cases hq : q a <;> simp [List.filter_cons, hq, hp', ih]

/-- Searching after filtering with a weaker predicate finds the same
row. -/
theorem find?_filter_of_imp {α : Type} (p q : α → Bool)
    (h : ∀ x, p x = true → q x = true) :
    ∀ l : List α, (l.filter q).find? p = l.find? p := by
  intro l
  induction l with
  | nil => rfl
  | cons a l ih =>
    by_cases hp : p a = true
    · have hq := h a hp
      rw [List.filter_cons_of_pos hq, List.find?_cons_of_pos _ hp,
        List.find?_cons_of_pos _ hp]
    · have hp' : ¬ p a = true := hp
      cases hq : q a with
      | false =>
          rw [List.filter_cons_of_neg (by simp [hq]),
            List.find?_cons_of_neg _ hp', ih]
      | true =>
          rw [List.filter_cons_of_pos hq, List.find?_cons_of_neg _ hp',
            List.find?_cons_of_neg _ hp', ih]

/-! ### Claims -/

/-- C2: for every conversation, the message list computed by
`get_conversation_messages` is sorted by creation time ascending, and
both the read-one-conversation endpoint and the list-messages endpoint
return exactly that list (rendered through `MessageRead.from_orm`);
`generate_llm_reply` loads its history as
`get_conversation_messages session conversation_id`, so the history it
uses is the sorted list of the first conjunct. -/
theorem claim_C2 (session : Store) (conversation_id : Nat) :
    (get_conversation_messages session conversation_id).Sorted msgLe ∧
    (∀ r, (read_conversation session conversation_id).1 = Except.ok r →
      r.messages =
        (get_conversation_messages session conversation_id).map MessageRead.from_orm) ∧
    (∀ ms, (read_messages_for_conversation session conversation_id).1 = Except.ok ms →
      ms =
        (get_conversation_messages session conversation_id).map MessageRead.from_orm) := by
  refine ⟨List.sorted_insertionSort msgLe _, ?_, ?_⟩
  · intro r hr
    cases h : getConversationRow session conversation_id with
    | none => simp [read_conversation, h] at hr
    | some conversation =>
        simp only [read_conversation, h] at hr
        cases hr
        rfl
  · intro ms hms
    cases h : getConversationRow session conversation_id with
    | none => simp [read_messages_for_conversation, h] at hms
    | some conversation =>
        simp only [read_messages_for_conversation, h] at hms
        cases hms
        rfl

/-- A concrete store used by the witnesses: conversation 1 has two
messages stored out of chronological order, conversation 2 has no
messages. -/
def wStore : Store :=
  { conversations := [{ id := 1, title := some "w" }, { id := 2, title := some "e" }],
    messages :=
      [{ id := 2, conversation_id := 1, role := "assistant", content := "b",
         created_at := 5 },
       { id := 1, conversation_id := 1, role := "user", content := "a",
         created_at := 3 }],
    next_conversation_id := 2, next_message_id := 3, clock := 6 }

/-- The payload returned for conversation 1 of `wStore` by the
read-one endpoint. -/
def wRead : ConversationReadWithMessages :=
  { title := some "w", id := 1,
    messages :=
      [{ role := "user", content := "a", id := 1, conversation_id := 1 },
       { role := "assistant", content := "b", id := 2, conversation_id := 1 }] }

/-- Witness for C2 at the concrete store `wStore`. -/
theorem claim_C2_witness :
    wRead.messages = (get_conversation_messages wStore 1).map MessageRead.from_orm ∧
    wRead.messages = (get_conversation_messages wStore 1).map MessageRead.from_orm :=
  ⟨(claim_C2 wStore 1).2.1 wRead (by rfl),
   (claim_C2 wStore 1).2.2 wRead.messages (by rfl)⟩

/-- C3: when the conversation id is absent, the read-messages,
create-message and llm-reply handlers each fail with the 404
`conversationNotFound` exception (a NotFound, not a server error) and
return the store unchanged; this holds for every request body and
every LLM client, so no write and no client call happens. -/
theorem claim_C3 (session : Store) (conversation_id : Nat)
    (h : getConversationRow session conversation_id = none)
    (message_in : MessageCreate) (llm : LlmClient) :
    read_messages_for_conversation session conversation_id =
      (Except.error conversationNotFound, session) ∧
    create_message_for_conversation session conversation_id message_in =
      (Except.error conversationNotFound, session) ∧
    generate_llm_reply llm session conversation_id =
      (Except.error conversationNotFound, session) ∧
    conversationNotFound.status_code = 404 := by
  refine ⟨?_, ?_, ?_, rfl⟩ <;>
    simp [read_messages_for_conversation, create_message_for_conversation,
      generate_llm_reply, h]

/-- Witness for C3: conversation 5 is absent from `wStore`. -/
theorem claim_C3_witness :
    read_messages_for_conversation wStore 5 =
      (Except.error conversationNotFound, wStore) ∧
    create_message_for_conversation wStore 5 { role := "user", content := "x" } =
      (Except.error conversationNotFound, wStore) ∧
    generate_llm_reply (fun _ => Except.ok "y") wStore 5 =
      (Except.error conversationNotFound, wStore) ∧
    conversationNotFound.status_code = 404 :=
  claim_C3 wStore 5 (by decide) { role := "user", content := "x" }
    (fun _ => Except.ok "y")

/-- C4: requesting a reply for an existing conversation with zero
messages fails with the 400 invalid-request exception and leaves the
store unchanged; the conclusion holds for every LLM client `llm`, so
the outcome never depends on the client â it is not invoked. -/
theorem claim_C4 (session : Store) (conversation_id : Nat)
    (hc : getConversationRow session conversation_id ≠ none)
    (hm : get_conversation_messages session conversation_id = [])
    (llm : LlmClient) :
    generate_llm_reply llm session conversation_id =
      (Except.error
        { status_code := 400,
          detail := "No messages in conversation to build a prompt from.",
          cause := none }, session) := by
  obtain ⟨c, h⟩ := Option.ne_none_iff_exists'.mp hc
  simp [generate_llm_reply, h, hm]

/-- Witness for C4: conversation 2 of `wStore` exists and has no
messages. -/
theorem claim_C4_witness :
    generate_llm_reply (fun _ => Except.ok "y") wStore 2 =
      (Except.error
        { status_code := 400,
          detail := "No messages in conversation to build a prompt from.",
          cause := none }, wStore) :=
  claim_C4 wStore 2 (by decide) (by decide) (fun _ => Except.ok "y")

/-- C5: for an existing conversation with non-empty history, when the
LLM client raises (returns an error `e` on the built message list),
the handler fails with a 500 whose cause chains `e`, and the store is
returned unchanged â no message is persisted. -/
theorem claim_C5 (session : Store) (conversation_id : Nat) (llm : LlmClient)
    (e : String)
    (hc : getConversationRow session conversation_id ≠ none)
    (hm : get_conversation_messages session conversation_id ≠ [])
    (he : llm (build_llm_messages (get_conversation_messages session conversation_id)) =
      Except.error e) :
    generate_llm_reply llm session conversation_id =
      (Except.error
        { status_code := 500, detail := "LLM call failed", cause := some e },
       session) := by
  obtain ⟨c, h⟩ := Option.ne_none_iff_exists'.mp hc
  have hne : (get_conversation_messages session conversation_id).isEmpty = false :=
    List.isEmpty_eq_false.mpr hm
  simp [generate_llm_reply, h, hne, he]

/-- Witness for C5: a client that always raises "boom" on
conversation 1 of `wStore`. -/
theorem claim_C5_witness :
    generate_llm_reply (fun _ => Except.error "boom") wStore 1 =
      (Except.error
        { status_code := 500, detail := "LLM call failed", cause := some "boom" },
       wStore) :=
  claim_C5 wStore 1 (fun _ => Except.error "boom") "boom" (by decide) (by decide)
    (by rfl)

/-- C1: for an existing conversation with at least one message, when
the LLM client succeeds with text `t`, the handler appends exactly one
new message â role "assistant", content `t`, owned by the conversation,
with the store-assigned id and timestamp â and returns that stored
message with its id and conversation id; conversations and all prior
messages are untouched. -/
theorem claim_C1 (session : Store) (conversation_id : Nat) (t : String)
    (hc : getConversationRow session conversation_id ≠ none)
    (hm : get_conversation_messages session conversation_id ≠ [])
    (llm : LlmClient)
    (ht : llm (build_llm_messages (get_conversation_messages session conversation_id)) =
      Except.ok t) :
    generate_llm_reply llm session conversation_id =
      (Except.ok
        { role := "assistant", content := t, id := session.next_message_id,
          conversation_id := conversation_id },
       { session with
           messages := session.messages ++
             [{ id := session.next_message_id, conversation_id := conversation_id,
                role := "assistant", content := t, created_at := session.clock }],
           next_message_id := session.next_message_id + 1,
           clock := session.clock + 1 }) := by
  obtain ⟨c, h⟩ := Option.ne_none_iff_exists'.mp hc
  have hne : (get_conversation_messages session conversation_id).isEmpty = false :=
    List.isEmpty_eq_false.mpr hm
  simp [generate_llm_reply, h, hne, ht, insertMessage, MessageRead.from_orm]

/-- Witness for C1: a client answering "hello" on conversation 1 of
`wStore`. -/
theorem claim_C1_witness :
    generate_llm_reply (fun _ => Except.ok "hello") wStore 1 =
      (Except.ok
        { role := "assistant", content := "hello", id := wStore.next_message_id,
          conversation_id := 1 },
       { wStore with
           messages := wStore.messages ++
             [{ id := wStore.next_message_id, conversation_id := 1,
                role := "assistant", content := "hello",
                created_at := wStore.clock }],
           next_message_id := wStore.next_message_id + 1,
           clock := wStore.clock + 1 }) :=
  claim_C1 wStore 1 "hello" (by decide) (by decide) (fun _ => Except.ok "hello")
    (by rfl)

/-- C6: deleting an existing conversation acknowledges with `ok = true`
(a 200, with `conversationNotFound` being the 404 raised afterwards),
removes the conversation row and every message it owns, and a
subsequent read of the same id fails with NotFound. -/
theorem claim_C6 (session : Store) (conversation_id : Nat)
    (hc : getConversationRow session conversation_id ≠ none) :
    (delete_conversation session conversation_id).1 = Except.ok true ∧
    (∀ c ∈ (delete_conversation session conversation_id).2.conversations,
      c.id ≠ conversation_id) ∧
    (∀ m ∈ (delete_conversation session conversation_id).2.messages,
      m.conversation_id ≠ conversation_id) ∧
    (read_conversation (delete_conversation session conversation_id).2
        conversation_id).1 = Except.error conversationNotFound ∧
    conversationNotFound.status_code = 404 := by
  obtain ⟨conv, h⟩ := Option.ne_none_iff_exists'.mp hc
  have hdel : delete_conversation session conversation_id =
      (Except.ok true,
        { session with
            messages := session.messages.filter
              (fun m => ¬ m.conversation_id == conversation_id),
            conversations := session.conversations.filter
              (fun c => ¬ c.id == conversation_id) }) := by
    simp [delete_conversation, h]
  rw [hdel]
  have hgone : getConversationRow
      { session with
          messages := session.messages.filter
            (fun m => ¬ m.conversation_id == conversation_id),
          conversations := session.conversations.filter
            (fun c => ¬ c.id == conversation_id) } conversation_id = none := by
    unfold getConversationRow
    rw [List.find?_eq_none]
    intro x hx
    simp only [List.mem_filter] at hx
    simpa using hx.2
  refine ⟨rfl, ?_, ?_, ?_, rfl⟩
  · intro c hcm
    simp only [List.mem_filter] at hcm
    simpa using hcm.2
  · intro m hmm
    simp only [List.mem_filter] at hmm
    simpa using hmm.2
  · simp only [read_conversation, hgone]

/-- Witness for C6: deleting conversation 1 of `wStore`. -/
theorem claim_C6_witness :
    (delete_conversation wStore 1).1 = Except.ok true ∧
    (read_conversation (delete_conversation wStore 1).2 1).1 =
      Except.error conversationNotFound :=
  ⟨(claim_C6 wStore 1 (by decide)).1, (claim_C6 wStore 1 (by decide)).2.2.2.1⟩

/-- C10: deleting conversation `c` is frame-preserving for every other
conversation `c2`: the lookup of `c2` and the message list owned by
`c2` are unchanged, whether or not the delete found `c`. -/
theorem claim_C10 (session : Store) (c c2 : Nat) (h : c ≠ c2) :
    getConversationRow (delete_conversation session c).2 c2 =
      getConversationRow session c2 ∧
    get_conversation_messages (delete_conversation session c).2 c2 =
      get_conversation_messages session c2 := by
  cases hg : getConversationRow session c with
  | none => simp [delete_conversation, hg]
  | some conv =>
    simp only [delete_conversation, hg]
    constructor
    · unfold getConversationRow
      exact find?_filter_of_imp _ _
        (fun x hx => by
          have hx2 : x.id = c2 := by simpa using hx
          simp only [hx2]
          simp
          exact fun hh => h hh.symm)
        session.conversations
    · unfold get_conversation_messages
      congr 1
      exact filter_filter_of_imp _ _
        (fun m hm => by
          have hm2 : m.conversation_id = c2 := by simpa using hm
          simp only [hm2]
          simp
          exact fun hh => h hh.symm)
        session.messages

/-- Witness for C10: deleting conversation 1 of `wStore` leaves
conversation 2 and its (empty) message list untouched. -/
theorem claim_C10_witness :
    getConversationRow (delete_conversation wStore 1).2 2 =
      getConversationRow wStore 2 ∧
    get_conversation_messages (delete_conversation wStore 1).2 2 =
      get_conversation_messages wStore 2 :=
  claim_C10 wStore 1 2 (by decide)

/-- C7: creating a conversation with no title returns, and stores, a
conversation whose title is "Conversation " followed by the id the
insert assigned (the store's next free id), set by the insert-then-
patch sequence of `create_conversation`. -/
theorem claim_C7 (session : Store) :
    (create_conversation session { title := none }).1 =
      { title := some ("Conversation " ++ toString session.next_conversation_id),
        id := session.next_conversation_id } ∧
    ∃ c ∈ (create_conversation session { title := none }).2.conversations,
      c.id = session.next_conversation_id ∧
      c.title = some ("Conversation " ++ toString session.next_conversation_id) := by
  refine ⟨rfl, ?_⟩
  refine ⟨{ id := session.next_conversation_id,
            title :=
              some ("Conversation " ++ toString session.next_conversation_id) },
    ?_, rfl, rfl⟩
  simp only [create_conversation]
  refine List.mem_map.mpr
    ⟨{ id := session.next_conversation_id, title := none }, by simp, by simp⟩

/-- C9: creating a conversation whose title is explicitly the empty
string keeps that empty title: the row is stored once with title ""
and no default-title patch happens (the patch fires only on a null
title). -/
theorem claim_C9 (session : Store) :
    (create_conversation session { title := some "" }).1 =
      { title := some "", id := session.next_conversation_id } ∧
    (create_conversation session { title := some "" }).2 =
      { session with
          conversations := session.conversations ++
            [{ id := session.next_conversation_id, title := some "" }],
          next_conversation_id := session.next_conversation_id + 1 } :=
  ⟨rfl, rfl⟩

/-- C8: for an existing conversation with non-empty history, the
message list handed to the LLM client starts with the fixed system
instruction and continues with the history's roles and contents in
chronological order, and the handler's outcome depends on the client
only through its value on exactly that list. -/
theorem claim_C8 (session : Store) (conversation_id : Nat)
    (hc : getConversationRow session conversation_id ≠ none)
    (hm : get_conversation_messages session conversation_id ≠ []) :
    (build_llm_messages (get_conversation_messages session conversation_id)).map
        LlmMessage.role =
      "system" ::
        (get_conversation_messages session conversation_id).map Message.role ∧
    (build_llm_messages (get_conversation_messages session conversation_id)).map
        LlmMessage.content =
      "You are a helpful assistant for the DSTL Chat App." ::
        (get_conversation_messages session conversation_id).map Message.content ∧
    ∀ llm1 llm2 : LlmClient,
      llm1 (build_llm_messages (get_conversation_messages session conversation_id)) =
        llm2 (build_llm_messages (get_conversation_messages session conversation_id)) →
      generate_llm_reply llm1 session conversation_id =
        generate_llm_reply llm2 session conversation_id := by
  obtain ⟨conv, h⟩ := Option.ne_none_iff_exists'.mp hc
  have hne : (get_conversation_messages session conversation_id).isEmpty = false :=
    List.isEmpty_eq_false.mpr hm
  refine ⟨?_, ?_, ?_⟩
  · simp [build_llm_messages, systemInstruction, List.map_map, Function.comp]
  · simp [build_llm_messages, systemInstruction, List.map_map, Function.comp]
  · intro llm1 llm2 heq
    simp only [generate_llm_reply, h, hne]
    rw [heq]

/-- Witness for C8: on conversation 1 of `wStore` two clients agreeing
on the built three-entry list produce the same outcome. -/
theorem claim_C8_witness :
    (build_llm_messages (get_conversation_messages wStore 1)).map
        LlmMessage.role =
      "system" :: (get_conversation_messages wStore 1).map Message.role ∧
    generate_llm_reply (fun _ => Except.ok "x") wStore 1 =
      generate_llm_reply
        (fun l => if l.length == 3 then Except.ok "x" else Except.ok "y")
        wStore 1 :=
  ⟨(claim_C8 wStore 1 (by decide) (by decide)).1,
   (claim_C8 wStore 1 (by decide) (by decide)).2.2
     (fun _ => Except.ok "x")
     (fun l => if l.length == 3 then Except.ok "x" else Except.ok "y")
     (by rfl)⟩

end DstlChat
